import Mathlib

/-!
Verification of the pymeasure instrument drivers `kepco/kepco_bopgl_5020.py`
(Kepco BOP 50-20 bipolar power supply) and `rohdeschwarz/zva50.py`
(Rohde & Schwarz ZVA vector network analyzer) against their natural-language
specification.

The drivers are declarative configuration over the pymeasure property
framework (`Instrument.control` / `Channel.control`, validators,
`Channel.insert_id`, `CommonBase.add_child`).  Only the two driver files are
part of the repository sources here; the framework pieces the drivers invoke
are modelled from the specification (each such definition carries a doc
comment starting with `Modelled from the spec:`).  Numeric values are embedded
as rationals; Python `%`-formatting and `float()` casting are embedded as
executable functions on rationals and strings.
-/

namespace Pymeasure

/-- Errors surfaced by the property layer: `valueError` for validator
rejections (`ValueError` in the source), `typeError` for unsupported
comparisons (`TypeError`). -/
inductive PmErr where
  | valueError
  | typeError
deriving DecidableEq, Repr

/-- Decidable equality on fallible results, for concrete evaluation of the
set/get pipelines. -/
instance {ε α : Type} [DecidableEq ε] [DecidableEq α] :
    DecidableEq (Except ε α) := fun a b =>
  match a, b with
  | .error e, .error f =>
    if h : e = f then .isTrue (by rw [h]) else .isFalse (by simp [h])
  | .ok x, .ok y =>
    if h : x = y then .isTrue (by rw [h]) else .isFalse (by simp [h])
  | .error _, .ok _ => .isFalse (by simp)
  | .ok _, .error _ => .isFalse (by simp)

/-- Truncation of a rational toward zero, as Python `int()` applied to a
float does. -/
def truncQ (v : ℚ) : ℤ :=
  if v < 0 then -(⌊-v⌋) else ⌊v⌋

/-- Python `"%d"` formatting of a numeric value: convert to an integer by
truncation toward zero, then render in decimal. -/
def fmtD (v : ℚ) : String :=
  toString (truncQ v)

/-- Round a rational to the nearest integer, ties to even, as CPython does
when producing the decimal digits of a float for `%g`. -/
def roundHE (q : ℚ) : ℤ :=
  let n := ⌊q⌋
  let r := q - (n : ℚ)
  if r < 1/2 then n
  else if 1/2 < r then n + 1
  else if n % 2 = 0 then n else n + 1

/-- Scale a positive rational into the window `[10^5, 10^6)` by repeated
multiplication or division by 10, tracking the decimal exponent `e` so that
the input equals `m * 10 ^ (e - 5)` for the returned `(m, e)`.  Fuel-bounded
structural recursion; 400 steps cover every magnitude arising here. -/
def gScale (a : ℚ) : ℕ → ℤ → ℚ × ℤ
  | 0, e => (a, e)
  | fuel + 1, e =>
    if a < 100000 then gScale (a * 10) fuel (e - 1)
    else if 1000000 ≤ a then gScale (a / 10) fuel (e + 1)
    else (a, e)

/-- Drop trailing `'0'` characters from a digit string. -/
def stripZeros (s : List Char) : List Char :=
  (s.reverse.dropWhile (fun c => c = '0')).reverse

/-- Render a six-significant-digit mantissa `digits` (most significant first)
with decimal exponent `e` in Python `%g` style: fixed notation when
`-4 ≤ e < 6`, exponential notation `d.dddddde±XX` otherwise, trailing zeros
stripped. -/
def gRender (digits : List Char) (e : ℤ) : String :=
  if -4 ≤ e ∧ e < 6 then
    if 0 ≤ e then
      let ip := digits.take (e.toNat + 1)
      let fp := stripZeros (digits.drop (e.toNat + 1))
      String.mk (ip ++ (if fp = [] then [] else '.' :: fp))
    else
      String.mk ('0' :: '.' :: (List.replicate (-e - 1).toNat '0' ++ stripZeros digits))
  else
    let fp := stripZeros (digits.drop 1)
    let mant := digits.take 1 ++ (if fp = [] then [] else '.' :: fp)
    let ea := (if e < 0 then -e else e).toNat
    let es := if ea < 10 then "0" ++ toString ea else toString ea
    String.mk mant ++ "e" ++ (if e < 0 then "-" else "+") ++ es

/-- Six-significant-digit rendering of a positive rational, the core of
Python `"%g"`. -/
def fmtGpos (v : ℚ) : String :=
  let (m, e) := gScale v 400 5
  let n := roundHE m
  let (n, e) := if n = 1000000 then ((100000 : ℤ), e + 1) else (n, e)
  gRender (toString n).data e

/-- Python `"%g"` formatting of a numeric value: six significant decimal
digits, fixed or exponential notation depending on the decimal exponent,
trailing zeros removed. -/
def fmtG (v : ℚ) : String :=
  if v = 0 then "0"
  else if v < 0 then "-" ++ fmtGpos (-v)
  else fmtGpos v

/-- Numeric value of a list of decimal digit characters, accumulator style;
`none` if a non-digit occurs. -/
def digitsValAux (acc : ℕ) : List Char → Option ℕ
  | [] => some acc
  | c :: rest =>
    if c.isDigit then digitsValAux (10 * acc + (c.toNat - 48)) rest else none

/-- Python `float()` on the integer-dot-fraction part of a decimal literal:
`"12"`, `"12.5"`, `"12."` and `".5"` are all accepted. -/
def parseMantissa (s : List Char) : Option ℚ :=
  let ip := s.takeWhile Char.isDigit
  let rest := s.dropWhile Char.isDigit
  match rest with
  | [] =>
    match digitsValAux 0 ip with
    | some n => if ip = [] then none else some (n : ℚ)
    | none => none
  | '.' :: fp =>
    match digitsValAux 0 ip, digitsValAux 0 fp with
    | some n, some f =>
      if ip = [] ∧ fp = [] then none
      else some ((n : ℚ) + (f : ℚ) / (10 : ℚ) ^ fp.length)
    | _, _ => none
  | _ => none

/-- Optional leading sign; returns the sign as a rational factor and the
remaining characters. -/
def parseSign : List Char → ℚ × List Char
  | '+' :: rest => (1, rest)
  | '-' :: rest => (-1, rest)
  | s => (1, s)

/-- Signed decimal integer for the exponent part of a float literal. -/
def parseExpPart (s : List Char) : Option ℤ :=
  let (sg, rest) := parseSign s
  match digitsValAux 0 rest with
  | some n => if rest = [] then none else some (if sg < 0 then -(n : ℤ) else (n : ℤ))
  | none => none

/-- Python `float()` on a decimal string such as `"0"`, `"12.5"`, `"-50"` or
`"1.0e10"`, embedded exactly into the rationals. -/
def parseFloat (str : String) : Option ℚ :=
  let (sg, s) := parseSign str.data
  let mant := s.takeWhile (fun c => ¬(c = 'e' ∨ c = 'E'))
  let rest := s.dropWhile (fun c => ¬(c = 'e' ∨ c = 'E'))
  match parseMantissa mant with
  | none => none
  | some m =>
    match rest with
    | [] => some (sg * m)
    | _ :: es =>
      match parseExpPart es with
      | some e => some (sg * m * (10 : ℚ) ^ e)
      | none => none

/-! ### Python `%`-style command formatting and placeholder substitution -/

/-- Replace each `%f`-style conversion (for the given conversion character
`f`) in a template character list by the already-formatted argument, as
Python `%` string interpolation does for the single-argument commands used by
these drivers. -/
def replSpec (f : Char) (arg : List Char) : List Char → List Char
  | [] => []
  | ['%'] => ['%']
  | '%' :: c :: rest =>
    if c = f then arg ++ replSpec f arg rest
    else '%' :: replSpec f arg (c :: rest)
  | c :: rest => c :: replSpec f arg rest

/-- The conversion character of the first `%`-conversion in a command
template (`'g'`, `'d'` or `'s'` in these drivers). -/
def findSpec : List Char → Char
  | [] => 'g'
  | '%' :: c :: _ => c
  | _ :: rest => findSpec rest

/-- Interpolate the formatted argument into the command template at its
`%`-conversion. -/
def pyFormat1 (tmpl : String) (arg : String) : String :=
  String.mk (replSpec (findSpec tmpl.data) arg.data tmpl.data)

/-- Modelled from the spec: pymeasure `Channel.insert_id` (not under `src/`)
resolves a sub-unit's command template by Python `str.format`, replacing the
placeholder field `{key}` by the sub-unit identifier, unescaping `{{` and
`}}`, and leaving other fields untouched ("a sub-unit's templates are the
parent's templates with the placeholder left unresolved until the sub-unit
fills its own identifier").  The first argument is `none` outside a
replacement field and `some acc` while accumulating a field name (reversed).
-/
def fmAux (k v : List Char) : Option (List Char) → List Char → List Char
  | none, [] => []
  | none, '{' :: '{' :: rest => '{' :: fmAux k v none rest
  | none, '{' :: rest => fmAux k v (some []) rest
  | none, '}' :: '}' :: rest => '}' :: fmAux k v none rest
  | none, c :: rest => c :: fmAux k v none rest
  | some acc, [] => '{' :: acc.reverse
  | some acc, '}' :: rest =>
    (if acc.reverse = k then v else '{' :: (acc.reverse ++ ['}'])) ++ fmAux k v none rest
  | some acc, c :: rest => fmAux k v (some (c :: acc)) rest

/-- Modelled from the spec: substitute a sub-unit identifier for its
placeholder in a command template (pymeasure `Channel.insert_id`). -/
def insertId (placeholder : String) (id : String) (cmd : String) : String :=
  String.mk (fmAux placeholder.data id.data none cmd.data)

/-! ### Validators (pymeasure `instruments.validators`, not under `src/`) -/

/-- Modelled from the spec: the strict numeric-range validator ("must lie
within a numeric range (clamped or rejected, per validator kind)", rejecting
kind): returns the value if it lies between the minimum and maximum of the
declared two-element values list, raises a `ValueError` otherwise. -/
def strict_range (value lo hi : ℚ) : Except PmErr ℚ :=
  if lo ≤ value ∧ value ≤ hi then .ok value else .error .valueError

/-- Modelled from the spec: the truncating numeric-range validator ("must lie
within a numeric range (clamped or rejected, per validator kind)", clamping
kind): an in-range value passes through, an out-of-range value is replaced by
the nearer declared bound; it never raises. -/
def truncated_range (value lo hi : ℚ) : Except PmErr ℚ :=
  .ok (if lo ≤ value ∧ value ≤ hi then value
       else if value > hi then hi else lo)

/-- Modelled from the spec: the enumerated-set validator ("must be exactly
one of an enumerated set"): returns the value if it is a member of the
declared values, raises a `ValueError` otherwise. -/
def strict_discrete_set {α : Type} [DecidableEq α] (value : α) (values : List α) :
    Except PmErr α :=
  if value ∈ values then .ok value else .error .valueError

/-! ### The numeric property descriptor (pymeasure `Instrument.control`,
not under `src/`) -/

/-- A numeric property declaration: the configuration data a driver passes
to `Instrument.control` / `Channel.control`.  `lo` and `hi` are the two
elements of the declared `values` list, `validator` is the declared
range-validator, `set_process` and `get_process` default to the identity as
in pymeasure. -/
structure NumControl where
  get_command : String
  set_command : String
  lo : ℚ
  hi : ℚ
  validator : ℚ → ℚ → ℚ → Except PmErr ℚ
  set_process : ℚ → ℚ := id
  get_process : ℚ → ℚ := id

/-- Modelled from the spec: the wire-side numeral of a set operation — the
candidate value is validated, then `set_process` is applied, then the result
is formatted by the `%`-conversion of the set command template ("apply
`validator` against `bounds` ... apply `set_process` ... format into the set
command template"). -/
def NumControl.wireStr (p : NumControl) (v : ℚ) : Except PmErr String := do
  let v1 ← p.validator v p.lo p.hi
  let w := p.set_process v1
  pure (if findSpec p.set_command.data = 'd' then fmtD w else fmtG w)

/-- Modelled from the spec: the full command string a set operation writes
(validation first, the formatted value interpolated into the template). -/
def NumControl.fset (p : NumControl) (v : ℚ) : Except PmErr String := do
  let w ← p.wireStr v
  pure (pyFormat1 p.set_command w)

/-- Modelled from the spec: the get pipeline — the response line is cast with
`float()`, then `get_process` is applied ("apply `cast` ... apply
`get_process`"); `none` is a decode failure. -/
def NumControl.fget (p : NumControl) (response : String) : Option ℚ :=
  (parseFloat response).map p.get_process

/-- Modelled from the spec: effect of a set operation on a transport spy
that records the written command lines.  A validation failure is raised
before any write, so the recorded list is returned unchanged; on success
exactly the one formatted command is appended. -/
def applyNumSet (p : NumControl) (v : ℚ) (writes : List String) :
    Except PmErr Unit × List String :=
  match p.fset v with
  | .error e => (.error e, writes)
  | .ok cmd => (.ok (), writes ++ [cmd])

/-- Modelled from the spec: the same set operation issued on a channel
sub-unit: the channel substitutes its identifier for the `{ch}` placeholder
at send time. -/
def applyChSet (p : NumControl) (ch : String) (v : ℚ) (writes : List String) :
    Except PmErr Unit × List String :=
  match p.fset v with
  | .error e => (.error e, writes)
  | .ok cmd => (.ok (), writes ++ [insertId "ch" ch cmd])

/-- Modelled from the spec: the set-then-get round trip against a device
that stores the programmed value and reports it back on query ("setting a
voltage setpoint to 12.5 ... and reading it back yields 12.5"): the set
side produces the wire numeral, the get side decodes that numeral as the
response line. -/
def NumControl.setThenGet (p : NumControl) (v : ℚ) : Except PmErr (Option ℚ) := do
  let w ← p.wireStr v
  pure (p.fget w)

/-- An identifier string that contains no Python format braces; sub-unit
identifiers in these drivers are decimal numerals, optionally joined by an
underscore. -/
def braceFree (s : String) : Bool :=
  s.data.all (fun c => ¬(c = '{' ∨ c = '}'))

/-! ### Kepco BOP 50-20 driver properties
(`src/pymeasure/instruments/kepco/kepco_bopgl_5020.py`) -/

namespace KepcoBOP5020

/-- The class constant `_Vmax = 50`. -/
def Vmax : ℚ := 50

/-- The class constant `_Imax = 20`. -/
def Imax : ℚ := 20

/-- `voltage_setpoint = Instrument.control("VOLTage?", "VOLTage %g", ...,
validator=truncated_range, values=[-1 * _Vmax, _Vmax])` (lines 123-141). -/
def voltage_setpoint : NumControl :=
  { get_command := "VOLTage?"
    set_command := "VOLTage %g"
    lo := -1 * Vmax
    hi := Vmax
    validator := truncated_range }

/-- `current_setpoint = Instrument.control("CURRent?", "CURRent %g", ...,
validator=truncated_range, values=[-1 * _Imax, _Imax])` (lines 103-121). -/
def current_setpoint : NumControl :=
  { get_command := "CURRent?"
    set_command := "CURRent %g"
    lo := -1 * Imax
    hi := Imax
    validator := truncated_range }

/-- The boolean-to-wire value map of
`output_enabled = Instrument.control("OUTPut?", "OUTP:CONT OFF; OUTPut %d",
..., validator=strict_discrete_set, values={True: 1, False: 0},
map_values=True)` (lines 145-154). -/
def output_enabled_values : List (Bool × ℚ) := [(true, 1), (false, 0)]

/-- Modelled from the spec: the set side of a `map_values=True` boolean
property — validate membership of the candidate in the map's keys, translate
it through the map to the wire value, format `%d` into the set command. -/
def output_enabled_fset (v : Bool) : Except PmErr String := do
  let v1 ← strict_discrete_set v (output_enabled_values.map Prod.fst)
  match (output_enabled_values.find? (fun p => p.1 = v1)).map Prod.snd with
  | some wire => pure (pyFormat1 "OUTP:CONT OFF; OUTPut %d" (fmtD wire))
  | none => .error .valueError

/-- Modelled from the spec: the get side of a `map_values=True` boolean
property — cast the response with `float()`, then invert the value map to
recover the user-facing key ("a query response of `\"0\"` decodes to
`False`"). -/
def output_enabled_fget (response : String) : Option Bool := do
  let x ← parseFloat response
  (output_enabled_values.find? (fun p => p.2 = x)).map Prod.fst

/-- `save_state` (lines 289-294): `message = "*SAV " + str(slot);
self.write(message)` — the transport receives exactly this line. -/
def save_state (slot : ℤ) (writes : List String) : List String :=
  writes ++ ["*SAV " ++ toString slot]

/-- `recall_state` (lines 296-301): `message = "*RCL " + str(slot) +
"; *OPC"; self.write(message)`. -/
def recall_state (slot : ℤ) (writes : List String) : List String :=
  writes ++ ["*RCL " ++ toString slot ++ "; *OPC"]

end KepcoBOP5020

/-! ### ZVA VNA channel properties
(`src/pymeasure/instruments/rohdeschwarz/zva50.py`) -/

namespace VNAChannel

/-- `power = Channel.control("SOUR{ch}:POW?", "SOUR{ch}:POW %d", ...,
validator=strict_range, values=[-40, 10])` (lines 13-19). -/
def power : NumControl :=
  { get_command := "SOUR{ch}:POW?"
    set_command := "SOUR{ch}:POW %d"
    lo := -40
    hi := 10
    validator := strict_range }

/-- `cw_frequency = Channel.control("SENS{ch}:FREQ:CW?",
"SENS{ch}:FREQ:CW %d", ..., validator=strict_range, values=[0.01, 50],
set_process=lambda v: 1e9 * v)` (lines 133-141).  Note: no `get_process` is
declared. -/
def cw_frequency : NumControl :=
  { get_command := "SENS{ch}:FREQ:CW?"
    set_command := "SENS{ch}:FREQ:CW %d"
    lo := 0.01
    hi := 50
    validator := strict_range
    set_process := fun v => 10 ^ 9 * v }

/-- `freq_start = Channel.control("SENS{ch}:FREQ:STAR?",
"SENS{ch}:FREQ:STAR %d", ..., validator=strict_range, values=[0.01, 50],
set_process=lambda v: 1e9 * v, get_process=lambda v: 1e-9 * v)`
(lines 178-186). -/
def freq_start : NumControl :=
  { get_command := "SENS{ch}:FREQ:STAR?"
    set_command := "SENS{ch}:FREQ:STAR %d"
    lo := 0.01
    hi := 50
    validator := strict_range
    set_process := fun v => 10 ^ 9 * v
    get_process := fun v => (10 ^ 9 : ℚ)⁻¹ * v }

/-- `freq_stop = Channel.control("SENS{ch}:FREQ:STOP?",
"SENS{ch}:FREQ:STOP %d", ..., validator=strict_range, values=[0.01, 50],
set_process=lambda v: 1e9 * v, get_process=lambda v: 1e-9 * v)`
(lines 188-196). -/
def freq_stop : NumControl :=
  { get_command := "SENS{ch}:FREQ:STOP?"
    set_command := "SENS{ch}:FREQ:STOP %d"
    lo := 0.01
    hi := 50
    validator := strict_range
    set_process := fun v => 10 ^ 9 * v
    get_process := fun v => (10 ^ 9 : ℚ)⁻¹ * v }

end VNAChannel

/-- `avg_number` (lines 159-166) declares `values=[1, sweep_number]`.  In the
class body `sweep_number` names the property-descriptor object returned by
`Channel.control` at line 62, not a number, so the declared values list holds
an integer and a descriptor object.  `PyVal` embeds exactly these two shapes
of Python value. -/
inductive PyVal where
  | num (q : ℚ)
  | descr
deriving DecidableEq, Repr

/-- Modelled from the spec: Python `<` between a number and a non-numeric
object raises `TypeError`; between numbers it compares numerically. -/
def pyLt : PyVal → PyVal → Except PmErr Bool
  | .num a, .num b => .ok (decide (a < b))
  | _, _ => .error .typeError

/-- Modelled from the spec: Python `<=`, with the same `TypeError` behaviour
as `pyLt`. -/
def pyLe : PyVal → PyVal → Except PmErr Bool
  | .num a, .num b => .ok (decide (a ≤ b))
  | _, _ => .error .typeError

/-- Python `min` of a two-element list: keeps the first element unless the
second compares strictly below it. -/
def pyMin2 (x y : PyVal) : Except PmErr PyVal := do
  if (← pyLt y x) then pure y else pure x

/-- Python `max` of a two-element list: keeps the first element unless the
second compares strictly above it. -/
def pyMax2 (x y : PyVal) : Except PmErr PyVal := do
  if (← pyLt x y) then pure y else pure x

/-- Modelled from the spec: the strict range validator as executed by Python
on an arbitrary two-element values list — evaluate `min(values)`, compare,
then `max(values)`, so a non-numeric element raises `TypeError` before any
range decision is made. -/
def strict_range_py (value v1 v2 : PyVal) : Except PmErr PyVal := do
  let mn ← pyMin2 v1 v2
  let c1 ← pyLe mn value
  if c1 then
    let mx ← pyMax2 v1 v2
    let c2 ← pyLe value mx
    if c2 then pure value else .error .valueError
  else .error .valueError

namespace VNAChannel

/-- Effect of setting `avg_number` (lines 159-166) on the transport spy:
validation runs `strict_range` against the declared `values=[1,
sweep_number]` list, whose second element is the captured descriptor object;
only a validated numeric value would be formatted and written. -/
def avg_number_set (v : PyVal) (writes : List String) :
    Except PmErr Unit × List String :=
  match strict_range_py v (.num 1) .descr with
  | .error e => (.error e, writes)
  | .ok (.num q) =>
    (.ok (), writes ++ [pyFormat1 "SENS{ch}:AVER:COUN %d" (fmtD q)])
  | .ok .descr => (.error .typeError, writes)

/-- The command written by `clear_avg` (lines 173-176) after the channel
fills its identifier: `"SENSe{ch}:AVER:CLE"`. -/
def clear_avg_cmd (ch : String) : String :=
  insertId "ch" ch "SENSe{ch}:AVER:CLE"

/-- The command written by `launch_single_sweep` (lines 94-97):
`"INIT{ch}:IMM; *OPC"`. -/
def launch_cmd (ch : String) : String :=
  insertId "ch" ch "INIT{ch}:IMM; *OPC"

/-- The query command of the `sweep_counter` measurement (lines 71-75):
`"CALC{ch}:DATA:NSW:COUN?"`; each evaluation of `self.sweep_counter` writes
this line and reads one response. -/
def sweepQuery (ch : String) : String :=
  insertId "ch" ch "CALC{ch}:DATA:NSW:COUN?"

/-- The polling loop of `single_sweep_vna` (lines 363-367): each iteration
queries the sweep counter in the `while` condition (the even-indexed reads
`trace (2*i)` of the trace of counter readings) and, when it continues,
queries it again in the loop body for progress reporting (the odd-indexed
reads).  The loop carries the list of transport writes; it terminates when
the condition read reaches `sweeps`, returning the number of completed
condition polls.  `fuel` bounds the iterations — the source loop is
unbounded, so exhausted fuel (`none`) stands for non-termination within
`fuel` polls. -/
def sweepLoop (trace : ℕ → ℚ) (sweeps : ℚ) (ch : String) :
    ℕ → ℕ → List String → Option (ℕ × List String)
  | 0, _, _ => none
  | fuel + 1, i, ws =>
    if trace (2 * i) < sweeps then
      sweepLoop trace sweeps ch fuel (i + 1) (ws ++ [sweepQuery ch] ++ [sweepQuery ch])
    else some (i, ws ++ [sweepQuery ch])

/-- `single_sweep_vna` (lines 358-369): clear the average, launch the single
sweep once, then poll `sweep_counter` until it reaches `sweeps`; when
`control` is truthy the final progress print reads the counter once more.
The result is the index of the condition poll at which the loop exited,
paired with every line written to the transport. -/
def single_sweep_vna (trace : ℕ → ℚ) (sweeps : ℚ) (ch : String)
    (control : Bool) (fuel : ℕ) : Option (ℕ × List String) :=
  match sweepLoop trace sweeps ch fuel 0 [clear_avg_cmd ch, launch_cmd ch] with
  | none => none
  | some (k, ws) => some (k, if control then ws ++ [sweepQuery ch] else ws)

end VNAChannel

/-! ### ZVA driver: sub-unit lifecycle
(`src/pymeasure/instruments/rohdeschwarz/zva50.py`, class `ZVA`) -/

/-- The ZVA driver's mutable state as a transport spy sees it: the keys of
the in-memory child mapping (insertion order) and the lines written to the
transport. -/
structure ZVAState where
  channels : List ℤ
  writes : List String
deriving DecidableEq, Repr

/-- Modelled from the spec: pymeasure `CommonBase.add_child` (not under
`src/`) registers the freshly allocated child Unit in the parent's child
mapping under the caller-chosen key; it performs no transport I/O. -/
def add_child (st : ZVAState) (id : ℤ) : ZVAState :=
  { st with channels := st.channels ++ [id] }

/-- A transport write that may fail: `writeOk` says whether the transport
accepts the command; on failure the underlying error propagates (second
component `false`) and nothing is recorded. -/
def zvaWrite (writeOk : String → Bool) (st : ZVAState) (cmd : String) :
    ZVAState × Bool :=
  if writeOk cmd then ({ st with writes := st.writes ++ [cmd] }, true)
  else (st, false)

/-- `create_zva_channel` (lines 398-403): writes
`"CONF:CHAN" + str(numb) + ":STAT ON"`. -/
def create_zva_channel (writeOk : String → Bool) (st : ZVAState) (numb : ℤ) :
    ZVAState × Bool :=
  zvaWrite writeOk st ("CONF:CHAN" ++ toString numb ++ ":STAT ON")

/-- `delete_zva_channel` (lines 405-410): writes
`"CONF:CHAN" + str(numb) + ":STAT OFF"` and returns; the body contains no
operation on the parent's child mapping. -/
def delete_zva_channel (writeOk : String → Bool) (st : ZVAState) (numb : ℤ) :
    ZVAState × Bool :=
  zvaWrite writeOk st ("CONF:CHAN" ++ toString numb ++ ":STAT OFF")

/-- The loop body of `define_default_channels` (lines 394-396): for each
channel number, `self.add_child(VNAChannel, channel)` first registers the
in-memory child, then `self.create_zva_channel(channel)` issues the
device-side creation command; an exception from the failing write propagates
immediately, leaving the state as already mutated. -/
def ddcLoop (writeOk : String → Bool) : List ℤ → ZVAState → ZVAState × Bool
  | [], st => (st, true)
  | ch :: rest, st =>
    let st1 := add_child st ch
    let (st2, ok) := create_zva_channel writeOk st1 ch
    if ok then ddcLoop writeOk rest st2 else (st2, false)

/-- `define_default_channels` (lines 385-396) over channel numbers
`1 .. channel_number` (`channels_list = list(range(1, channel_number + 1))`);
the interactive re-prompt for `channel_number < 1` is console I/O and is not
modelled — the function is used at `channel_number ≥ 1`. -/
def define_default_channels (writeOk : String → Bool) (st : ZVAState)
    (channel_number : ℕ) : ZVAState × Bool :=
  ddcLoop writeOk ((List.range channel_number).map (fun i => (i : ℤ) + 1)) st

/-! ### Nested trace templates (`VNAChannel.ChannelTrace`, lines 295-356) -/

namespace ChannelTrace

/-- The get template of the `measurement` trace property (line 300):
`"CALC{{ch}}:PAR:MEAS? 'Trc{tr}'"` — the channel placeholder is escaped so
that the trace-level substitution leaves `{ch}` for the parent channel. -/
def measurement_get_template : String := "CALC{{ch}}:PAR:MEAS? 'Trc{tr}'"

/-- A trace command as it reaches the adapter: the trace substitutes its
`tr` placeholder first (`ChannelTrace.placeholder = "tr"`, line 297), then
the parent channel substitutes `ch`, mirroring the nested
`Channel.write` → `parent.write(insert_id(...))` chain. -/
def trace_command (ch tr tmpl : String) : String :=
  insertId "ch" ch (insertId "tr" tr tmpl)

end ChannelTrace

/-! ## Theorems -/

section Theorems

attribute [local semireducible] Rat.mul Rat.add Rat.sub Rat.inv Rat.ofScientific

/-- Reduction of the fallible-pipeline bind on an error. -/
theorem ebind_err {ε α β : Type} (e : ε) (f : α → Except ε β) :
    (Except.error e >>= f) = Except.error e := rfl

/-- Reduction of the fallible-pipeline bind on a success. -/
theorem ebind_ok {ε α β : Type} (a : α) (f : α → Except ε β) :
    (Except.ok a >>= f) = f a := rfl

/-- The truncating validator clamps a value above the upper bound to that
bound. -/
theorem truncated_range_high (v lo hi : ℚ) (h : hi < v) :
    truncated_range v lo hi = .ok hi := by
  unfold truncated_range
  rw [if_neg (fun hh => absurd hh.2 (not_le.mpr h)), if_pos h]

/-- The truncating validator passes an in-range value through unchanged. -/
theorem truncated_range_in (v lo hi : ℚ) (h1 : lo ≤ v) (h2 : v ≤ hi) :
    truncated_range v lo hi = .ok v := by
  unfold truncated_range
  rw [if_pos ⟨h1, h2⟩]

/-- The truncating validator clamps a value below the lower bound to that
bound. -/
theorem truncated_range_low (v lo hi : ℚ) (h1 : v < lo) (h2 : lo ≤ hi) :
    truncated_range v lo hi = .ok lo := by
  unfold truncated_range
  rw [if_neg (fun hh => absurd hh.1 (not_le.mpr h1)),
    if_neg (not_lt.mpr (le_trans (le_of_lt h1) h2))]

/-- Stepping lemma: a character that is not a format brace passes through the
placeholder substitution unchanged. -/
theorem fmAux_cons_default (k v : List Char) (c : Char) (t : List Char)
    (h1 : ¬ c = '{') (h2 : ¬ c = '}') :
    fmAux k v none (c :: t) = c :: fmAux k v none t := by
  rw [fmAux.eq_def]
  split <;> simp_all

/-- A brace-free text block distributes over the placeholder substitution:
the substitution leaves it verbatim and continues on the remainder. -/
theorem fmAux_append_braceFree (k v ys : List Char) :
    ∀ xs : List Char, (∀ c ∈ xs, ¬(c = '{' ∨ c = '}')) →
      fmAux k v none (xs ++ ys) = xs ++ fmAux k v none ys := by
  intro xs
  induction xs with
  | nil => intro _; rfl
  | cons c t ih =>
    intro h
    have hc := h c (by simp)
    rw [List.cons_append,
      fmAux_cons_default k v c _ (fun hh => hc (Or.inl hh)) (fun hh => hc (Or.inr hh)),
      ih (fun d hd => h d (by simp [hd]))]
    simp

/-- C3: the claim reads "if the device-side creation command fails (the
transport write raises), no new child Unit remains registered in the
parent's child mapping".  The code registers the child
(`self.add_child(VNAChannel, channel)`) before issuing the creation command
(`self.create_zva_channel(channel)`), so when the very first creation write
fails the error propagates (second component `false`) while channel 1 is
already — and remains — registered in the child mapping, which the claim
says must be unchanged (empty). -/
theorem failed_channel_creation_leaves_orphan :
    define_default_channels (fun _ => false) ⟨[], []⟩ 1
      = (⟨[1], []⟩, false) := by
  decide

/-- C4 counterexample: deleting channel 1 when the mapping holds the single
handle 1 issues the deactivation command once but leaves the handle
registered — the claim's "removes its handle from the parent's in-memory
child mapping" fails at this input. -/
theorem delete_channel_keeps_handle :
    delete_zva_channel (fun _ => true) ⟨[1], []⟩ 1
      = (⟨[1], ["CONF:CHAN1:STAT OFF"]⟩, true) := by
  decide

/-- C4 amended: for every sub-unit identifier, `delete_zva_channel` issues
the device-side deactivation command exactly once (exactly one line is
appended to the transport per call) and leaves the parent's in-memory child
mapping unchanged — the handle is not removed. -/
theorem delete_channel_writes_once_mapping_unchanged :
    ∀ (st : ZVAState) (numb : ℤ),
      delete_zva_channel (fun _ => true) st numb
        = ({ channels := st.channels,
             writes := st.writes
               ++ ["CONF:CHAN" ++ toString numb ++ ":STAT OFF"] }, true) := by
  intro st numb
  rfl

/-- C6: on the `output_enabled` property (`values={True: 1, False: 0}`,
`map_values=True`), setting `True` formats wire value 1 into the set command
`"OUTP:CONT OFF; OUTPut %d"`, and the query response `"0"` decodes through
the inverse map to `False`. -/
theorem output_enabled_map_roundtrip :
    KepcoBOP5020.output_enabled_fset true = .ok "OUTP:CONT OFF; OUTPut 1" ∧
    KepcoBOP5020.output_enabled_fget "0" = some false := by
  constructor <;> decide

/-- C7 counterexample: `cw_frequency` declares no `get_process`, so the
query response `"1.0e10"` decodes to `1.0e10` (the raw Hz value), not to the
claimed `10.0` GHz. -/
theorem cw_frequency_decode_not_converted :
    VNAChannel.cw_frequency.fget "1.0e10" = some (10 ^ 10 : ℚ) ∧
    (10 ^ 10 : ℚ) ≠ 10 := by
  constructor <;> decide

/-- C7 amended: for `freq_start` (which declares both `set_process = 1e9 * v`
and `get_process = 1e-9 * v`) setting 2.4 GHz formats the wire value
2400000000 = 2.4e9 Hz and the response `"1.0e10"` decodes to 10.0 GHz; for
`cw_frequency` (write-side conversion only) setting 2.4 likewise formats
2.4e9 Hz, but the response `"1.0e10"` decodes without conversion to 1.0e10.
-/
theorem freq_conversion_per_property :
    VNAChannel.freq_start.wireStr (12/5) = .ok "2400000000" ∧
    ((2400000000 : ℚ) = 2.4 * 10 ^ 9) ∧
    VNAChannel.freq_start.fget "1.0e10" = some 10 ∧
    VNAChannel.cw_frequency.wireStr (12/5) = .ok "2400000000" ∧
    VNAChannel.cw_frequency.fget "1.0e10" = some (10 ^ 10 : ℚ) := by
  refine ⟨by decide, by decide, by decide, by decide, by decide⟩

/-- C9: setting `avg_number` never reaches a numeric range decision: the
declared values list `[1, sweep_number]` captured the `sweep_number`
property-descriptor object as its upper bound, so `min(values)` compares an
integer against a non-numeric object and every numeric candidate value fails
with a `TypeError` — and nothing is written to the transport. -/
theorem avg_number_always_type_error :
    ∀ (q : ℚ) (ws : List String),
      VNAChannel.avg_number_set (.num q) ws = (.error .typeError, ws) := by
  intro q ws
  rfl

/-- C10: for every integer slot — including slots outside the documented
1–99 memory range — `save_state` writes exactly `"*SAV <slot>"` and
`recall_state` writes exactly `"*RCL <slot>; *OPC"`, one line each, with no
validator involved. -/
theorem save_recall_state_exact_writes :
    ∀ (slot : ℤ) (ws : List String),
      KepcoBOP5020.save_state slot ws = ws ++ ["*SAV " ++ toString slot] ∧
      KepcoBOP5020.recall_state slot ws
        = ws ++ ["*RCL " ++ toString slot ++ "; *OPC"] := by
  intro slot ws
  exact ⟨rfl, rfl⟩

/-- C8: for every pair of brace-free (opaque) identifiers `(ch, tr)`, the
command sent for the trace `measurement` property substitutes the two
placeholders independently and without collision: the trace identifier fills
`{tr}` verbatim and the parent channel's identifier fills `{ch}` verbatim,
each in its intended position of the resulting command string. -/
theorem nested_trace_placeholders :
    ∀ ch tr : String, braceFree ch = true → braceFree tr = true →
      ChannelTrace.trace_command ch tr ChannelTrace.measurement_get_template
        = "CALC" ++ ch ++ ":PAR:MEAS? " ++ "'Trc" ++ tr ++ "'" := by
  intro ch tr hch htr
  have htr2 : ∀ c ∈ tr.data, ¬(c = '{' ∨ c = '}') := by
    simpa [braceFree, List.all_eq_true] using htr
  have h1 : insertId "tr" tr ChannelTrace.measurement_get_template
      = String.mk ("CALC{ch}:PAR:MEAS? ".data
          ++ ('\'' :: 'T' :: 'r' :: 'c' :: []) ++ tr.data ++ ['\'']) := by
    simp [insertId, ChannelTrace.measurement_get_template, fmAux]
  rw [ChannelTrace.trace_command, h1]
  simp [insertId, fmAux]
  rw [fmAux_append_braceFree _ _ _ _ htr2]
  apply String.ext
  simp [fmAux]

/-- C8 witness: with the concrete identifiers the source constructs
(channel 2, trace `"2_1"`), the trace command comes out with each identifier
in place. -/
theorem nested_trace_placeholders_witness :
    ChannelTrace.trace_command "2" "2_1" ChannelTrace.measurement_get_template
      = "CALC" ++ "2" ++ ":PAR:MEAS? " ++ "'Trc" ++ "2_1" ++ "'" :=
  nested_trace_placeholders "2" "2_1" (by decide) (by decide)

/-- Unrolling lemma for the sweep-polling loop: if the condition polls
starting at iteration `i` stay below the target until iteration `k`, where
the target is first reached, the loop returns `k` having appended two
counter queries per completed iteration and one for the final check — and
nothing else. -/
theorem sweepLoop_spec (trace : ℕ → ℚ) (sweeps : ℚ) (ch : String) :
    ∀ (fuel i k : ℕ) (ws : List String), i ≤ k → k - i < fuel →
      sweeps ≤ trace (2 * k) →
      (∀ j, i ≤ j → j < k → trace (2 * j) < sweeps) →
      VNAChannel.sweepLoop trace sweeps ch fuel i ws
        = some (k, ws ++ List.replicate (2 * (k - i)) (VNAChannel.sweepQuery ch)
            ++ [VNAChannel.sweepQuery ch]) := by
  intro fuel
  induction fuel with
  | zero =>
    intro i k ws _ h2 _ _
    exact absurd h2 (by omega)
  | succ fuel ih =>
    intro i k ws h1 h2 h3 h4
    rw [VNAChannel.sweepLoop]
    by_cases hc : trace (2 * i) < sweeps
    · have hik : i < k := by
        rcases Nat.eq_or_lt_of_le h1 with rfl | h
        · exact absurd hc (not_lt.mpr h3)
        · exact h
      rw [if_pos hc,
        ih (i + 1) k _ (by omega) (by omega) h3
          (fun j hj1 hj2 => h4 j (by omega) hj2)]
      have hsplit : 2 * (k - i) = 2 + 2 * (k - (i + 1)) := by omega
      rw [hsplit, List.replicate_add]
      simp
    · have hik : i = k := by
        by_contra hne
        exact hc (h4 i le_rfl (by omega))
      subst hik
      rw [if_neg hc]
      simp

/-- C5: `single_sweep_vna` issues the sweep-start command exactly once —
the transport trace is exactly the clear-average line and the start line,
in that order, followed only by counter queries — and for every trace of
counter readings it exits at condition poll `k`, the first `while`-condition
evaluation at which the sweep counter reaches or exceeds the target
`sweeps` (condition polls read the even positions of the reading trace; the
odd positions are the loop body's progress read). -/
theorem single_sweep_starts_once_stops_at_target :
    ∀ (trace : ℕ → ℚ) (sweeps : ℚ) (ch : String) (control : Bool)
      (k fuel : ℕ),
      sweeps ≤ trace (2 * k) → (∀ j, j < k → trace (2 * j) < sweeps) →
      k < fuel →
      VNAChannel.single_sweep_vna trace sweeps ch control fuel
        = some (k, [VNAChannel.clear_avg_cmd ch, VNAChannel.launch_cmd ch]
            ++ List.replicate (2 * k) (VNAChannel.sweepQuery ch)
            ++ [VNAChannel.sweepQuery ch]
            ++ (if control then [VNAChannel.sweepQuery ch] else [])) := by
  intro trace sweeps ch control k fuel h1 h2 h3
  rw [VNAChannel.single_sweep_vna,
    sweepLoop_spec trace sweeps ch fuel 0 k _ (Nat.zero_le k) (by omega) h1
      (fun j _ hj => h2 j hj)]
  cases control <;> simp [List.append_assoc]

/-- C5 witness: with the counter trace `n ↦ n` and target 2, the loop exits
at condition poll 1 (counter readings 0, 1, 2: the two condition polls read
0 then 2), after one start command and three counter queries. -/
theorem single_sweep_starts_once_witness :
    VNAChannel.single_sweep_vna (fun n => (n : ℚ)) 2 "1" false 3
      = some (1, [VNAChannel.clear_avg_cmd "1", VNAChannel.launch_cmd "1"]
          ++ List.replicate 2 (VNAChannel.sweepQuery "1")
          ++ [VNAChannel.sweepQuery "1"] ++ []) := by
  have h := single_sweep_starts_once_stops_at_target (fun n => (n : ℚ)) 2 "1"
    false 1 3 (by norm_num)
    (by intro j hj; have hj0 : j = 0 := by omega
        subst hj0; norm_num)
    (by norm_num)
  simpa using h

/-- C1 counterexample: `voltage_setpoint` carries a numeric-range validator
(`truncated_range`, bounds `[-50, 50]`), yet assigning the out-of-range
value 100 raises no validation error and performs one transport write — the
clamped command `"VOLTage 50"` — falsifying "assigning v raises a
validation error and causes zero writes" for this property. -/
theorem voltage_setpoint_out_of_range_writes :
    (100 : ℚ) > KepcoBOP5020.voltage_setpoint.hi ∧
    applyNumSet KepcoBOP5020.voltage_setpoint 100 []
      = (.ok (), ["VOLTage 50"]) := by
  constructor <;> decide

/-- C1 amended: for every property whose declared validator is the
rejecting `strict_range` (e.g. `power` on a VNA channel), every candidate
outside the declared bounds raises a validation error and leaves the
transport write list unchanged — both for plain properties and for channel
sub-unit properties; properties declared with the truncating
`truncated_range` (e.g. `voltage_setpoint`) instead clamp the value to the
violated bound and write the clamped command. -/
theorem strict_range_rejects_before_write :
    (∀ (p : NumControl) (ch : String) (v : ℚ) (ws : List String),
        p.validator = strict_range → (v < p.lo ∨ p.hi < v) →
        applyNumSet p v ws = (.error .valueError, ws) ∧
        applyChSet p ch v ws = (.error .valueError, ws)) ∧
    (∀ (v : ℚ) (ws : List String), 50 < v →
        applyNumSet KepcoBOP5020.voltage_setpoint v ws
          = (.ok (), ws ++ ["VOLTage 50"])) ∧
    (∀ (v : ℚ) (ws : List String), v < -50 →
        applyNumSet KepcoBOP5020.voltage_setpoint v ws
          = (.ok (), ws ++ ["VOLTage -50"])) := by
  refine ⟨?_, ?_, ?_⟩
  · intro p ch v ws hval hout
    have hnot : ¬(p.lo ≤ v ∧ v ≤ p.hi) := by
      rcases hout with h | h
      · rintro ⟨h1, -⟩; linarith
      · rintro ⟨-, h2⟩; linarith
    have hws : p.wireStr v = .error .valueError := by
      unfold NumControl.wireStr
      rw [hval]
      unfold strict_range
      rw [if_neg hnot, ebind_err]
    have hfs : p.fset v = .error .valueError := by
      unfold NumControl.fset
      rw [hws, ebind_err]
    exact ⟨by unfold applyNumSet; rw [hfs], by unfold applyChSet; rw [hfs]⟩
  · intro v ws h50
    have hval : KepcoBOP5020.voltage_setpoint.validator v
        KepcoBOP5020.voltage_setpoint.lo KepcoBOP5020.voltage_setpoint.hi
        = .ok 50 := by
      show truncated_range v (-1 * KepcoBOP5020.Vmax) KepcoBOP5020.Vmax
        = .ok 50
      rw [truncated_range_high v _ _ (by unfold KepcoBOP5020.Vmax; exact h50)]
      rfl
    have hfs : KepcoBOP5020.voltage_setpoint.fset v = .ok "VOLTage 50" := by
      unfold NumControl.fset NumControl.wireStr
      rw [hval, ebind_ok]
      decide
    unfold applyNumSet
    rw [hfs]
  · intro v ws hlo
    have hval : KepcoBOP5020.voltage_setpoint.validator v
        KepcoBOP5020.voltage_setpoint.lo KepcoBOP5020.voltage_setpoint.hi
        = .ok (-50) := by
      show truncated_range v (-1 * KepcoBOP5020.Vmax) KepcoBOP5020.Vmax
        = .ok (-50)
      rw [truncated_range_low v _ _ (by unfold KepcoBOP5020.Vmax; linarith)
        (by unfold KepcoBOP5020.Vmax; norm_num)]
      unfold KepcoBOP5020.Vmax
      norm_num
    have hfs : KepcoBOP5020.voltage_setpoint.fset v = .ok "VOLTage -50" := by
      unfold NumControl.fset NumControl.wireStr
      rw [hval, ebind_ok]
      decide
    unfold applyNumSet
    rw [hfs]

/-- C1 witness: `power` (strict validator, bounds `[-40, 10]`) at the
out-of-range value 100 on channel 1 errors with the transport untouched,
while `voltage_setpoint` at 100 clamps and writes. -/
theorem strict_range_rejects_witness :
    applyChSet VNAChannel.power "1" 100 [] = (.error .valueError, []) ∧
    applyNumSet KepcoBOP5020.voltage_setpoint 100 [] = (.ok (), ["VOLTage 50"]) ∧
    applyNumSet KepcoBOP5020.voltage_setpoint (-100) [] = (.ok (), ["VOLTage -50"]) :=
  ⟨(strict_range_rejects_before_write.1 VNAChannel.power "1" 100 [] rfl
      (Or.inr (by norm_num [VNAChannel.power]))).2,
    by simpa using strict_range_rejects_before_write.2.1 100 [] (by norm_num),
    by simpa using strict_range_rejects_before_write.2.2 (-100) [] (by norm_num)⟩

/-- C2 counterexample: for `cw_frequency` (declared bounds `[0.01, 50]` in
GHz), setting the in-range value 2.4 and reading back yields 2400000000 —
the stored Hz value — because the property declares only the write-side
GHz→Hz conversion; the claimed round-trip value 2.4 is not returned, and no
declared conversion or precision effect accounts for the factor 10^9. -/
theorem cw_frequency_roundtrip_fails :
    VNAChannel.cw_frequency.setThenGet (12/5) = .ok (some (24 * 10 ^ 8)) ∧
    (24 * 10 ^ 8 : ℚ) ≠ 12/5 := by
  constructor <;> decide

/-- C2 amended: set-then-get returns the value written whenever the
property's declared read-side processing inverts its write-side conversion
and the wire formatting is exact for that value: `voltage_setpoint`
(identity conversions, `%g` formatting) returns every in-range exactly
representable `v`, and `freq_start` (`1e9 * v` on write, `1e-9 * v` on
read, `%d` formatting) likewise; `cw_frequency`, which declares only the
write-side conversion, returns `1e9 * v` instead (concretely, 2400000000
for 2.4). -/
theorem roundtrip_law_per_property :
    (∀ v : ℚ, -50 ≤ v → v ≤ 50 → parseFloat (fmtG v) = some v →
        KepcoBOP5020.voltage_setpoint.setThenGet v = .ok (some v)) ∧
    (∀ v : ℚ, 0.01 ≤ v → v ≤ 50 →
        parseFloat (fmtD (10 ^ 9 * v)) = some (10 ^ 9 * v) →
        VNAChannel.freq_start.setThenGet v = .ok (some v)) ∧
    VNAChannel.cw_frequency.setThenGet (12/5) = .ok (some (24 * 10 ^ 8)) := by
  refine ⟨?_, ?_, by decide⟩
  · intro v h1 h2 hpf
    have hval : KepcoBOP5020.voltage_setpoint.validator v
        KepcoBOP5020.voltage_setpoint.lo KepcoBOP5020.voltage_setpoint.hi
        = .ok v := by
      show truncated_range v (-1 * KepcoBOP5020.Vmax) KepcoBOP5020.Vmax
        = .ok v
      exact truncated_range_in v _ _ (by unfold KepcoBOP5020.Vmax; linarith)
        (by unfold KepcoBOP5020.Vmax; exact h2)
    have hspec : (if findSpec
        KepcoBOP5020.voltage_setpoint.set_command.data = 'd'
        then fmtD v else fmtG v) = fmtG v := by
      rw [if_neg (by decide)]
    unfold NumControl.setThenGet NumControl.wireStr
    rw [hval, ebind_ok]
    show Except.ok (KepcoBOP5020.voltage_setpoint.fget _) = _
    rw [show KepcoBOP5020.voltage_setpoint.set_process v = v from rfl, hspec]
    unfold NumControl.fget
    rw [hpf]
    rfl
  · intro v h1 h2 hpf
    have hval : VNAChannel.freq_start.validator v
        VNAChannel.freq_start.lo VNAChannel.freq_start.hi = .ok v := by
      show strict_range v 0.01 50 = .ok v
      unfold strict_range
      rw [if_pos ⟨h1, h2⟩]
    have hspec : (if findSpec VNAChannel.freq_start.set_command.data = 'd'
        then fmtD (10 ^ 9 * v) else fmtG (10 ^ 9 * v))
        = fmtD (10 ^ 9 * v) := by
      rw [if_pos (by decide)]
    unfold NumControl.setThenGet NumControl.wireStr
    rw [hval, ebind_ok]
    show Except.ok (VNAChannel.freq_start.fget _) = _
    rw [show VNAChannel.freq_start.set_process v = 10 ^ 9 * v from rfl, hspec]
    unfold NumControl.fget
    rw [hpf]
    show Except.ok (some ((10 ^ 9 : ℚ)⁻¹ * (10 ^ 9 * v))) = _
    rw [← mul_assoc, inv_mul_cancel₀ (by norm_num), one_mul]

/-- C2 witness: setting `voltage_setpoint` to 12.5 (inside `[-50, 50]`) and
reading it back yields 12.5, and setting `freq_start` to 2.4 (inside
`[0.01, 50]`) and reading it back yields 2.4. -/
theorem roundtrip_law_witness :
    KepcoBOP5020.voltage_setpoint.setThenGet (25/2) = .ok (some (25/2)) ∧
    VNAChannel.freq_start.setThenGet (12/5) = .ok (some (12/5)) :=
  ⟨roundtrip_law_per_property.1 (25/2) (by norm_num) (by norm_num) (by decide),
    roundtrip_law_per_property.2.1 (12/5) (by norm_num) (by norm_num) (by decide)⟩

end Theorems

end Pymeasure
